import Mathlib

/-!
Verification of the support-copilot embedding/retrieval core.

Shallow embedding of:
  - app/services/embedding_service.py  (EmbeddingService: generate_embedding,
    prepare_ticket_text, _get_field_value, store_embedding)
  - app/services/retrival_service.py   (RetrievalService: search_similar_tickets,
    format_rag_context)

Dynamically-typed Python values are modelled by the inductive `PyVal`;
Python dicts by association lists `List (String × PyVal)`; machine floats by ℚ
(the properties at stake are order/arithmetic identities, exact over ℚ);
fallible code by `Except`.  Python string primitives that Lean implements by
well-founded recursion on byte positions (strip, endswith, slicing) are
re-expressed over the character list `String.data`, so every definition
evaluates by kernel reduction.  The SQL statements built by the services
(the ML.DISTANCE search query and the MERGE upsert) are modelled by Lean
functions executing their documented relational semantics over explicit
table states.
-/

/-- Python `s.strip()`: remove leading and trailing whitespace. -/
def pyStrip (s : String) : String :=
  ⟨((s.data.dropWhile Char.isWhitespace).reverse.dropWhile Char.isWhitespace).reverse⟩

/-- Python `s.endswith(suffix)`. -/
def pyEndsWith (s suffix : String) : Bool :=
  suffix.data.isSuffixOf s.data

/-- Python `s[:-n]` (for `n` ≥ 1): drop the last `n` characters. -/
def pyDropRight (s : String) (n : Nat) : String :=
  ⟨s.data.take (s.data.length - n)⟩

/-- Model of a dynamically typed Python value as it occurs in the services:
`None`, ints, floats (as ℚ), strings and lists. -/
inductive PyVal where
  | vnone : PyVal
  | vint : Int → PyVal
  | vfloat : ℚ → PyVal
  | vstr : String → PyVal
  | vlist : List PyVal → PyVal

/-- Python `value is None`. -/
def PyVal.isNone : PyVal → Bool
  | .vnone => true
  | _ => false

/-- Python `isinstance(value, int)` (bools do not occur in this model). -/
def PyVal.isInt : PyVal → Bool
  | .vint _ => true
  | _ => false

/-- Python `isinstance(value, (int, float))`. -/
def PyVal.isNum : PyVal → Bool
  | .vint _ => true
  | .vfloat _ => true
  | _ => false

/-- Numeric value of an int/float `PyVal` (0 on other constructors, unreached
after an `isNum` check). -/
def PyVal.toRat : PyVal → ℚ
  | .vint n => (n : ℚ)
  | .vfloat q => q
  | _ => 0

/-- Python `str(value)` for the scalar values the ticket dicts carry.  The
rendering of lists is a placeholder (no claim converts a list-valued field to
text); scalars follow CPython: `str(None) = "None"`, ints print in decimal,
strings are themselves. -/
def pyStr : PyVal → String
  | .vnone => "None"
  | .vint n => toString n
  | .vfloat q => toString q
  | .vstr s => s
  | .vlist _ => "[list]"

/-- Python truthiness (`bool(value)`) for the modelled values. -/
def pyTruthy : PyVal → Bool
  | .vnone => false
  | .vint n => decide (n ≠ 0)
  | .vfloat q => decide (q ≠ 0)
  | .vstr s => decide (s ≠ "")
  | .vlist l => !l.isEmpty

/-- A Python dict is modelled as an association list; `lookup` is key access. -/
abbrev PyDict := List (String × PyVal)

/-- EmbeddingService._get_field_value: try the field names in order; on the
first name present in the dict, return None when the value is None or blank
after `str(value).strip()`, else the stripped string — without consulting any
later name. -/
def get_field_value (ticket : PyDict) : List String → Option String
  | [] => none
  | name :: rest =>
    match ticket.lookup name with
    | none => get_field_value ticket rest
    | some v =>
      if v.isNone then none
      else
        let s := pyStrip (pyStr v)
        if s = "" then none else some s

/-- EmbeddingService.prepare_ticket_text: render the three logical fields in
fixed order, one line each, only when present, joined with newline characters;
empty string when no field is present. -/
def prepare_ticket_text (ticket : PyDict) : String :=
  let subject := get_field_value ticket ["subject", "ticket_subject"]
  let description := get_field_value ticket ["description", "ticket_description"]
  let resolution := get_field_value ticket ["resolution", "ticket_resolution"]
  let text_parts :=
    (subject.map (fun s => "Subject: " ++ s)).toList ++
    (description.map (fun s => "Issue: " ++ s)).toList ++
    (resolution.map (fun s => "Resolution: " ++ s)).toList
  if text_parts.isEmpty then "" else String.intercalate "\n" text_parts

/-! ## Embedding generator (generate_embedding) -/

/-- The backslash character. -/
def bsChar : Char := Char.ofNat 92

/-- The single-quote character. -/
def sqChar : Char := Char.ofNat 39

/-- The line-feed character. -/
def lfChar : Char := Char.ofNat 10

/-- The carriage-return character. -/
def crChar : Char := Char.ofNat 13

/-- Python `s.replace(old, rep)` for a single-character pattern `old`,
expressed on character lists. -/
def pyCharReplace (old : Char) (rep : List Char) (s : List Char) : List Char :=
  s.flatMap (fun c => if c = old then rep else [c])

/-- The escaping performed by generate_embedding before splicing the text into
the SQL literal:
escaped = text.replace(sq, bs sq).replace(lf, bs n).replace(cr, bs r). -/
def escape_text (s : List Char) : List Char :=
  pyCharReplace crChar [bsChar, 'r']
    (pyCharReplace lfChar [bsChar, 'n']
      (pyCharReplace sqChar [bsChar, sqChar] s))

/-- Decoding of one escape sequence by the query language: backslash-n is a
line feed, backslash-r a carriage return, any other escaped character (the
quote, the backslash) stands for itself. -/
def decodeEscChar (d : Char) : Char :=
  if d = 'n' then lfChar else if d = 'r' then crChar else d

/-- The query language's unescaping of a string literal body: a backslash
escapes the following character via decodeEscChar; other characters stand for
themselves.  (External semantics of the SQL engine reading the literal that
escape_text produced.) -/
def unescape_literal : List Char → List Char
  | [] => []
  | [c] => [c]
  | c :: d :: rest =>
    if c = bsChar then decodeEscChar d :: unescape_literal rest
    else c :: unescape_literal (d :: rest)

/-- Errors raised by generate_embedding, one constructor per raise site:
empty input text; empty backend result set; shape violation (some n = a list
of length n ≠ 768 was returned, none = a non-list payload). -/
inductive EmbedError where
  | emptyText : EmbedError
  | noResult : EmbedError
  | badShape : Option Nat → EmbedError

/-- EmbeddingService.generate_embedding, with the backend's reply rows given
as data: the `embedding` column value of each returned row.  Mirrors the
validation sequence of the source: reject blank text before any call; reject
an empty result set; reject a first-row payload that is not a list of exactly
768 elements (the error records the observed length for lists, none for
non-lists); otherwise return the payload unchanged. -/
def generate_embedding (text : String) (rows : List PyVal) : Except EmbedError PyVal :=
  if text = "" ∨ pyStrip text = "" then .error .emptyText
  else
    match rows with
    | [] => .error .noResult
    | r :: _ =>
      match r with
      | .vlist l =>
        if l.length = 768 then .ok (.vlist l) else .error (.badShape (some l.length))
      | _ => .error (.badShape none)

/-! ## Embedding store (store_embedding) -/

/-- Errors raised by store_embedding's validation, one per raise site. -/
inductive StoreError where
  | notInt : StoreError
  | notFloatList : StoreError
  | badLen : Nat → StoreError

/-- The parameterized DML statement store_embedding submits after validation:
which statement (MERGE when upsert, plain INSERT otherwise) and the three
query parameters. -/
structure StoreQuery where
  upsert : Bool
  ticket_id : Int
  embedding : List ℚ
  text_content : String

/-- EmbeddingService.store_embedding up to the backend call: validation in
source order (ticket_id an int; vector a list of numbers; length exactly 768;
None text replaced by the empty string), then the DML request it would submit.
An error return means the function raised before any backend contact. -/
def store_embedding (ticket_id : PyVal) (vector : PyVal) (text : Option String)
    (upsert : Bool) : Except StoreError StoreQuery :=
  match ticket_id with
  | .vint tid =>
    match vector with
    | .vlist l =>
      if l.all PyVal.isNum then
        if l.length = 768 then
          .ok ⟨upsert, tid, l.map PyVal.toRat, text.getD ""⟩
        else .error (.badLen l.length)
      else .error .notFloatList
    | _ => .error .notFloatList
  | _ => .error .notInt

/-- A row of the `ticket_embeddings` table. -/
structure EmbRow where
  ticket_id : Int
  embedding_vector : List ℚ
  text_content : String
  created_at : Nat
deriving DecidableEq

/-- Relational semantics of the MERGE statement store_embedding submits when
upsert is true: rows of the target matching the source row on ticket_id have
embedding_vector and text_content updated (created_at untouched); when no row
matches, a single new row is inserted with created_at = CURRENT_TIMESTAMP()
(the parameter `now`). -/
def merge_upsert (table : List EmbRow) (tid : Int) (vec : List ℚ) (txt : String)
    (now : Nat) : List EmbRow :=
  if table.any (fun r => r.ticket_id == tid) then
    table.map (fun r =>
      if r.ticket_id == tid then
        { r with embedding_vector := vec, text_content := txt }
      else r)
  else
    table ++ [⟨tid, vec, txt, now⟩]

/-! ## Similarity search (search_similar_tickets) -/

/-- A candidate row of the search query's inner join: one stored embedding
joined to its ticket, with the ML.DISTANCE value against the query vector. -/
structure CandRow where
  ticket_id : Int
  ticket_subject : String
  ticket_description : String
  ticket_resolution : String
  distance : ℚ
deriving DecidableEq

/-- One element of search_similar_tickets' result list. -/
structure SimilarityResult where
  ticket_id : Int
  ticket_subject : String
  ticket_description : String
  ticket_resolution : String
  similarity_score : ℚ
deriving DecidableEq

/-- The query's distance-to-similarity conversion: 1 - (distance / 2). -/
def similarityOfDistance (d : ℚ) : ℚ := 1 - d / 2

/-- The SELECT list of the search query applied to one candidate row. -/
def toResult (r : CandRow) : SimilarityResult :=
  ⟨r.ticket_id, r.ticket_subject, r.ticket_description, r.ticket_resolution,
    similarityOfDistance r.distance⟩

/-- Descending order on similarity score (the query's ORDER BY
similarity_score DESC; ties may resolve in any order, the model fixes a
stable sort). -/
def simDesc (a b : SimilarityResult) : Prop :=
  b.similarity_score ≤ a.similarity_score

instance : DecidableRel simDesc := fun a b =>
  inferInstanceAs (Decidable (b.similarity_score ≤ a.similarity_score))

instance : IsTotal SimilarityResult simDesc :=
  ⟨fun a b => le_total b.similarity_score a.similarity_score⟩

instance : IsTrans SimilarityResult simDesc :=
  ⟨fun _ _ _ hab hbc => le_trans hbc hab⟩

/-- Relational semantics of the search SQL over the joined candidate rows:
compute each row's similarity, keep rows WHERE 1 - (distance / 2) >= 0.5,
ORDER BY similarity_score DESC, LIMIT `limit`. -/
def searchRows (rows : List CandRow) (limit : Nat) : List SimilarityResult :=
  ((((rows.map toResult).filter
      (fun s => decide ((1 : ℚ) / 2 ≤ s.similarity_score))).insertionSort simDesc).take limit)

/-- The value RetrievalService.search_similar_tickets returns together with
which collaborators it invoked. -/
structure SearchOutcome where
  results : List SimilarityResult
  embeddingCalled : Bool
  backendCalled : Bool
deriving DecidableEq

/-- RetrievalService.search_similar_tickets.  The outcome of the two remote
calls is passed as data: `embed` is what generate_embedding would produce for
the query, `backend` maps the query vector to the outcome of running the
search SQL's FROM/JOIN (the candidate rows) — the model then executes the
query's WHERE/ORDER/LIMIT via searchRows.  Mirrors the source's guards in
order: blank query, then null-or-nonpositive limit, then the try/except whose
handler returns the empty list on any failure. -/
def search_similar_tickets (query : String) (limit : Option Int)
    (embed : Except String (List ℚ))
    (backend : List ℚ → Except String (List CandRow)) : SearchOutcome :=
  if query = "" ∨ pyStrip query = "" then ⟨[], false, false⟩
  else
    match limit with
    | none => ⟨[], false, false⟩
    | some n =>
      if n ≤ 0 then ⟨[], false, false⟩
      else
        match embed with
        | .error _ => ⟨[], true, false⟩
        | .ok v =>
          match backend v with
          | .error _ => ⟨[], true, true⟩
          | .ok rows => ⟨searchRows rows n.toNat, true, true⟩

/-! ## Context formatter (format_rag_context) -/

/-- Python `t.get(key)`: the value when present, None otherwise. -/
def dictGet (t : PyDict) (k : String) : PyVal :=
  (t.lookup k).getD PyVal.vnone

/-- Model of the interpolation of `t.get(key) or ""` into an f-string: the
value's str() when truthy, the empty string otherwise. -/
def getOrEmpty (t : PyDict) (k : String) : String :=
  let v := dictGet t k
  if pyTruthy v then pyStr v else ""

/-- RetrievalService.format_rag_context: header line, then per ticket a
Case/Issue/Resolution block and a "---" separator, joined with newlines, the
trailing separator stripped; empty string for an empty list. -/
def format_rag_context (tickets : List PyDict) : String :=
  if tickets.isEmpty then ""
  else
    let lines := "Similar Cases:" :: tickets.flatMap (fun t =>
      ["Case #" ++ pyStr (dictGet t "ticket_id") ++ ": " ++ getOrEmpty t "ticket_subject",
       "Issue: " ++ getOrEmpty t "ticket_description",
       "Resolution: " ++ getOrEmpty t "ticket_resolution",
       "---"])
    let out := String.intercalate "\n" lines
    if pyEndsWith out "\n---" then pyDropRight out 4 else out

/-- Concrete candidate rows whose distances produce the similarities
0.9, 0.7, 0.4, 0.3 of the spec's similarity-search test case. -/
def exampleRows : List CandRow :=
  [⟨1, "a", "b", "c", 1/5⟩, ⟨2, "d", "e", "f", 3/5⟩,
   ⟨3, "g", "h", "i", 6/5⟩, ⟨4, "j", "k", "l", 7/5⟩]

/-- The top-ranked result for exampleRows. -/
def exampleTop : SimilarityResult := ⟨1, "a", "b", "c", 9/10⟩

/-- The second-ranked result for exampleRows. -/
def exampleSecond : SimilarityResult := ⟨2, "d", "e", "f", 7/10⟩

/-- A backend payload of 768 elements none of which is numeric. -/
def nonNumericPayload : List PyVal := List.replicate 768 (PyVal.vstr "x")

section ConcreteEvaluation

attribute [local semireducible] Rat.sub Rat.mul Rat.inv Rat.add

example : prepare_ticket_text [("subject", .vstr "A"), ("description", .vstr "B")]
    = "Subject: A\nIssue: B" := by decide

example : prepare_ticket_text [("subject", .vstr "  "), ("ticket_subject", .vstr "X")]
    = "" := by decide

example : prepare_ticket_text [("ticket_subject", .vstr " X ")]
    = "Subject: X" := by decide

example :
    format_rag_context [[("ticket_id", .vint 1), ("ticket_subject", .vstr "S"),
      ("ticket_description", .vstr "D"), ("ticket_resolution", .vstr "R")]]
    = "Similar Cases:\nCase #1: S\nIssue: D\nResolution: R" := by decide

example :
    format_rag_context [[("ticket_id", .vint 1), ("subject", .vstr "S"),
      ("description", .vstr "D"), ("resolution", .vstr "R")]]
    = "Similar Cases:\nCase #1: \nIssue: \nResolution: " := by decide

example :
    searchRows
      [⟨1, "a", "b", "c", 1/5⟩, ⟨2, "d", "e", "f", 3/5⟩,
       ⟨3, "g", "h", "i", 6/5⟩, ⟨4, "j", "k", "l", 7/5⟩] 5
    = [⟨1, "a", "b", "c", 9/10⟩, ⟨2, "d", "e", "f", 7/10⟩] := by decide

example : unescape_literal (escape_text [bsChar, 'n']) = [lfChar] := by decide

/-- C1: every SimilarityResult in the output of the similarity search, over any
non-empty candidate set with non-negative distances, has
similarity_score = 1 - (distance / 2) for some candidate, and that score lies
in [0.5, 1]. -/
theorem search_similarity_score_bounds (rows : List CandRow) (limit : Nat)
    (_hne : rows ≠ []) (hnonneg : ∀ r ∈ rows, 0 ≤ r.distance) :
    ∀ s ∈ searchRows rows limit,
      ((1 : ℚ) / 2 ≤ s.similarity_score ∧ s.similarity_score ≤ 1) ∧
      ∃ r ∈ rows, s.similarity_score = 1 - r.distance / 2 := by
  intro s hs
  have h1 : s ∈ ((rows.map toResult).filter
      (fun s => decide ((1 : ℚ) / 2 ≤ s.similarity_score))).insertionSort simDesc :=
    List.take_subset _ _ hs
  have h2 : s ∈ (rows.map toResult).filter
      (fun s => decide ((1 : ℚ) / 2 ≤ s.similarity_score)) :=
    (List.perm_insertionSort simDesc _).subset h1
  obtain ⟨hmem, hpred⟩ := List.mem_filter.mp h2
  obtain ⟨r, hr, hsr⟩ := List.mem_map.mp hmem
  have hge : (1 : ℚ) / 2 ≤ s.similarity_score := of_decide_eq_true hpred
  have hscore : s.similarity_score = 1 - r.distance / 2 := by
    rw [← hsr]; rfl
  have hd : 0 ≤ r.distance := hnonneg r hr
  have hhalf : 0 ≤ r.distance / 2 := by positivity
  refine ⟨⟨hge, ?_⟩, r, hr, hscore⟩
  rw [hscore]; linarith

/-- C1 witness: the bounds hold for the top result of the concrete example. -/
theorem search_similarity_score_bounds_witness :
    (((1 : ℚ) / 2 ≤ exampleTop.similarity_score ∧ exampleTop.similarity_score ≤ 1) ∧
      ∃ r ∈ exampleRows, exampleTop.similarity_score = 1 - r.distance / 2) :=
  search_similarity_score_bounds exampleRows 5 (by decide) (by decide)
    exampleTop (by decide)

/-- C2: the search maps distance to similarity via 1 - d/2, discards
similarities below 0.5, orders survivors descending and truncates to limit;
on the spec's concrete case (similarities 0.9, 0.7, 0.4, 0.3 with limit 5)
exactly the 0.9 and 0.7 results are returned, in that order. -/
theorem search_algorithm (rows : List CandRow) (limit : Nat) :
    (searchRows rows limit).length ≤ limit ∧
    List.Sorted simDesc (searchRows rows limit) ∧
    (∀ s ∈ searchRows rows limit,
      (1 : ℚ) / 2 ≤ s.similarity_score ∧ ∃ r ∈ rows, s = toResult r) ∧
    (rows = exampleRows → limit = 5 →
      searchRows rows limit = [exampleTop, exampleSecond]) := by
  refine ⟨?_, ?_, ?_, ?_⟩
  · exact List.length_take_le _ _
  · exact List.Pairwise.sublist (List.take_sublist _ _)
      (List.sorted_insertionSort simDesc _)
  · intro s hs
    have h2 : s ∈ (rows.map toResult).filter
        (fun s => decide ((1 : ℚ) / 2 ≤ s.similarity_score)) :=
      (List.perm_insertionSort simDesc _).subset (List.take_subset _ _ hs)
    obtain ⟨hmem, hpred⟩ := List.mem_filter.mp h2
    obtain ⟨r, hr, hsr⟩ := List.mem_map.mp hmem
    exact ⟨of_decide_eq_true hpred, r, hr, hsr.symm⟩
  · rintro rfl rfl; decide

/-- C2 witness: the concrete filter/rank/truncate run. -/
theorem search_algorithm_witness :
    searchRows exampleRows 5 = [exampleTop, exampleSecond] :=
  (search_algorithm exampleRows 5).2.2.2 rfl rfl

/-- C3: the search returns the empty outcome without calling the embedder or
the backend on a blank query or a null/non-positive limit, returns the empty
list without the backend call when embedding fails, and returns the empty list
when the backend call fails — it never propagates an error. -/
theorem search_graceful (query : String) (limit : Option Int)
    (embed : Except String (List ℚ))
    (backend : List ℚ → Except String (List CandRow)) :
    (pyStrip query = "" →
      search_similar_tickets query limit embed backend = ⟨[], false, false⟩) ∧
    (limit = none →
      search_similar_tickets query limit embed backend = ⟨[], false, false⟩) ∧
    (∀ n, limit = some n → n ≤ 0 →
      search_similar_tickets query limit embed backend = ⟨[], false, false⟩) ∧
    (∀ e, embed = .error e →
      (search_similar_tickets query limit embed backend).results = [] ∧
      (search_similar_tickets query limit embed backend).backendCalled = false) ∧
    (∀ v e, embed = .ok v → backend v = .error e →
      (search_similar_tickets query limit embed backend).results = []) := by
  refine ⟨?_, ?_, ?_, ?_, ?_⟩
  · intro h
    simp [search_similar_tickets, h]
  · rintro rfl
    by_cases hq : query = "" ∨ pyStrip query = "" <;>
      simp [search_similar_tickets, hq]
  · rintro n rfl hn
    by_cases hq : query = "" ∨ pyStrip query = "" <;>
      simp [search_similar_tickets, hq, hn]
  · rintro e rfl
    by_cases hq : query = "" ∨ pyStrip query = ""
    · simp [search_similar_tickets, hq]
    · cases limit with
      | none => simp [search_similar_tickets, hq]
      | some n =>
        by_cases hn : n ≤ 0 <;> simp [search_similar_tickets, hq, hn]
  · rintro v e rfl hb
    by_cases hq : query = "" ∨ pyStrip query = ""
    · simp [search_similar_tickets, hq]
    · cases limit with
      | none => simp [search_similar_tickets, hq]
      | some n =>
        by_cases hn : n ≤ 0 <;> simp [search_similar_tickets, hq, hn, hb]

/-- C3 witness: a whitespace-only query short-circuits to the empty outcome. -/
theorem search_graceful_witness :
    search_similar_tickets "   " (some 5) (Except.ok [])
      (fun _ => Except.ok []) = ⟨[], false, false⟩ :=
  (search_graceful "   " (some 5) (Except.ok []) (fun _ => Except.ok [])).1
    (by decide)

/-- Updated rows with another ticket_id are exactly the original ones
(auxiliary for the MERGE frame condition). -/
theorem filter_map_update_frame (tid : Int) (vec : List ℚ) (txt : String) :
    ∀ table : List EmbRow,
      ((table.map (fun r => if r.ticket_id == tid
          then { r with embedding_vector := vec, text_content := txt } else r)).filter
        (fun r => !(r.ticket_id == tid)))
      = table.filter (fun r => !(r.ticket_id == tid))
  | [] => rfl
  | r :: t => by
    have ih := filter_map_update_frame tid vec txt t
    by_cases h : r.ticket_id = tid
    · simpa [h] using ih
    · simpa [h] using ih

/-- C4: MERGE with upsert: when a record for ticket_id exists, its
embedding_vector and text_content are replaced in place and created_at is kept
(the update literal touches only those two fields); when none exists, a single
new record with created_at = now is appended; records of any other ticket_id
pass through the statement unchanged. -/
theorem merge_upsert_spec (table : List EmbRow) (tid : Int) (vec : List ℚ)
    (txt : String) (now : Nat) :
    ((∃ r ∈ table, r.ticket_id = tid) →
      merge_upsert table tid vec txt now =
        table.map (fun r => if r.ticket_id == tid
          then { r with embedding_vector := vec, text_content := txt } else r)) ∧
    ((∀ r ∈ table, r.ticket_id ≠ tid) →
      merge_upsert table tid vec txt now = table ++ [⟨tid, vec, txt, now⟩]) ∧
    (merge_upsert table tid vec txt now).filter (fun r => !(r.ticket_id == tid))
      = table.filter (fun r => !(r.ticket_id == tid)) := by
  refine ⟨?_, ?_, ?_⟩
  · rintro ⟨r, hr, hid⟩
    have hany : table.any (fun r => r.ticket_id == tid) = true :=
      List.any_eq_true.mpr ⟨r, hr, by simp [hid]⟩
    simp [merge_upsert, hany]
  · intro h
    have hany : table.any (fun r => r.ticket_id == tid) = false := by
      simp only [List.any_eq_false]
      intro r hr
      simp [h r hr]
    simp [merge_upsert, hany]
  · by_cases hany : table.any (fun r => r.ticket_id == tid) = true
    · simp only [merge_upsert, hany, if_true]
      exact filter_map_update_frame tid vec txt table
    · simp [merge_upsert, hany, List.filter_append]

/-- C4 witness: updating an existing record replaces vector and text and keeps
created_at. -/
theorem merge_upsert_spec_witness :
    merge_upsert [⟨7, [0], "old", 5⟩] 7 [1] "new" 99 = [⟨7, [1], "new", 5⟩] :=
  ((merge_upsert_spec [⟨7, [0], "old", 5⟩] 7 [1] "new" 99).1
    ⟨⟨7, [0], "old", 5⟩, by simp, rfl⟩).trans (by decide)

set_option maxRecDepth 8000 in
/-- C5 counterexample: a backend payload that is a list of 768 non-numeric
values is accepted and returned by generate_embedding, so a reply with
non-numeric elements does not fail. -/
theorem generate_embedding_nonnumeric_accepted :
    generate_embedding "query" [PyVal.vlist nonNumericPayload]
      = Except.ok (PyVal.vlist nonNumericPayload) := rfl

/-- C5 (amended): for non-blank input text, generate_embedding fails on an
absent payload, on a non-list payload, and on a list payload of length ≠ 768
(the error carrying the observed length); any returned vector is the first
row's payload, a list of exactly 768 elements.  Element numeric-ness is not
validated. -/
theorem generate_embedding_shape (text : String) (rows : List PyVal)
    (ht : ¬(text = "" ∨ pyStrip text = "")) :
    (rows = [] → generate_embedding text rows = .error .noResult) ∧
    (∀ l rest, rows = PyVal.vlist l :: rest → l.length ≠ 768 →
      generate_embedding text rows = .error (.badShape (some l.length))) ∧
    (∀ r rest, rows = r :: rest → (∀ l, r ≠ PyVal.vlist l) →
      generate_embedding text rows = .error (.badShape none)) ∧
    (∀ v, generate_embedding text rows = .ok v →
      ∃ l rest, rows = PyVal.vlist l :: rest ∧ l.length = 768 ∧ v = PyVal.vlist l) := by
  refine ⟨?_, ?_, ?_, ?_⟩
  · rintro rfl
    simp [generate_embedding, ht]
  · rintro l rest rfl hl
    simp [generate_embedding, ht, hl]
  · rintro r rest rfl hr
    cases r with
    | vlist l => exact absurd rfl (hr l)
    | vnone => simp [generate_embedding, ht]
    | vint n => simp [generate_embedding, ht]
    | vfloat q => simp [generate_embedding, ht]
    | vstr s => simp [generate_embedding, ht]
  · intro v hv
    cases rows with
    | nil => simp [generate_embedding, ht] at hv
    | cons r rest =>
      cases r with
      | vlist l =>
        by_cases h : l.length = 768
        · simp [generate_embedding, ht, h] at hv
          subst hv
          exact ⟨l, rest, rfl, h, rfl⟩
        · simp [generate_embedding, ht, h] at hv
      | vnone => simp [generate_embedding, ht] at hv
      | vint n => simp [generate_embedding, ht] at hv
      | vfloat q => simp [generate_embedding, ht] at hv
      | vstr s => simp [generate_embedding, ht] at hv

/-- C5 witness: a 1-element payload is rejected with its observed length. -/
theorem generate_embedding_shape_witness :
    generate_embedding "q" [PyVal.vlist [PyVal.vfloat 1]]
      = .error (.badShape (some 1)) :=
  (generate_embedding_shape "q" [PyVal.vlist [PyVal.vfloat 1]] (by decide)).2.1
    [PyVal.vfloat 1] [] rfl (by decide)

/-- C6: store_embedding validates before any backend contact: a non-int
ticket_id, a non-list vector, a vector with a non-numeric element, and a
wrong-length vector each fail (no DML request is produced); a null content
text is replaced by the empty string in the submitted request. -/
theorem store_embedding_validates (tid vec : PyVal) (text : Option String)
    (upsert : Bool) :
    (tid.isInt = false → store_embedding tid vec text upsert = .error .notInt) ∧
    (∀ n, tid = PyVal.vint n → (∀ l, vec ≠ PyVal.vlist l) →
      store_embedding tid vec text upsert = .error .notFloatList) ∧
    (∀ n l, tid = PyVal.vint n → vec = PyVal.vlist l → l.all PyVal.isNum = false →
      store_embedding tid vec text upsert = .error .notFloatList) ∧
    (∀ n l, tid = PyVal.vint n → vec = PyVal.vlist l → l.all PyVal.isNum = true →
      l.length ≠ 768 → store_embedding tid vec text upsert = .error (.badLen l.length)) ∧
    (∀ n l, tid = PyVal.vint n → vec = PyVal.vlist l → l.all PyVal.isNum = true →
      l.length = 768 →
      store_embedding tid vec none upsert = .ok ⟨upsert, n, l.map PyVal.toRat, ""⟩) := by
  refine ⟨?_, ?_, ?_, ?_, ?_⟩
  · intro h
    cases tid with
    | vint n => simp [PyVal.isInt] at h
    | vnone => rfl
    | vfloat q => rfl
    | vstr s => rfl
    | vlist l => rfl
  · rintro n rfl hvl
    cases vec with
    | vlist l => exact absurd rfl (hvl l)
    | vnone => rfl
    | vint m => rfl
    | vfloat q => rfl
    | vstr s => rfl
  · rintro n l rfl rfl hall
    simp [store_embedding, hall]
  · rintro n l rfl rfl hall hlen
    simp [store_embedding, hall, hlen]
  · rintro n l rfl rfl hall hlen
    simp [store_embedding, hall, hlen]

/-- C6 witness: a string ticket_id is rejected before any backend contact. -/
theorem store_embedding_validates_witness :
    store_embedding (PyVal.vstr "x") (PyVal.vlist []) (some "t") true
      = .error .notInt :=
  (store_embedding_validates (PyVal.vstr "x") (PyVal.vlist []) (some "t") true).1 rfl

/-- The backslash is not the line feed. -/
theorem bs_ne_lf : ¬ bsChar = lfChar := by decide

/-- The backslash is not the carriage return. -/
theorem bs_ne_cr : ¬ bsChar = crChar := by decide

/-- The quote is not the line feed. -/
theorem sq_ne_lf : ¬ sqChar = lfChar := by decide

/-- The quote is not the carriage return. -/
theorem sq_ne_cr : ¬ sqChar = crChar := by decide

/-- The line feed is not the quote. -/
theorem lf_ne_sq : ¬ lfChar = sqChar := by decide

/-- The carriage return is not the quote. -/
theorem cr_ne_sq : ¬ crChar = sqChar := by decide

/-- The carriage return is not the line feed. -/
theorem cr_ne_lf : ¬ crChar = lfChar := by decide

/-- The letter n is not the carriage return. -/
theorem n_ne_cr : ¬ ('n' : Char) = crChar := by decide

/-- Decoding an escaped quote yields the quote. -/
theorem decode_sq : decodeEscChar sqChar = sqChar := by decide

/-- Decoding an escaped n yields the line feed. -/
theorem decode_n : decodeEscChar 'n' = lfChar := by decide

/-- Decoding an escaped r yields the carriage return. -/
theorem decode_r : decodeEscChar 'r' = crChar := by decide

/-- Unescaping steps over a non-backslash head unchanged. -/
theorem unescape_cons_of_ne (c : Char) (t : List Char) (h : ¬ c = bsChar) :
    unescape_literal (c :: t) = c :: unescape_literal t := by
  cases t with
  | nil => simp [unescape_literal]
  | cons d rest => simp [unescape_literal, h]

/-- Unescaping decodes a backslash-led pair. -/
theorem unescape_escaped (d : Char) (t : List Char) :
    unescape_literal (bsChar :: d :: t) = decodeEscChar d :: unescape_literal t := by
  simp [unescape_literal]

/-- escape_text acts character-wise. -/
theorem escape_text_cons (c : Char) (t : List Char) :
    escape_text (c :: t) =
      (if c = sqChar then [bsChar, sqChar]
       else if c = lfChar then [bsChar, 'n']
       else if c = crChar then [bsChar, 'r'] else [c]) ++ escape_text t := by
  by_cases h1 : c = sqChar
  · subst h1
    simp [escape_text, pyCharReplace, bs_ne_lf, sq_ne_lf, bs_ne_cr, sq_ne_cr]
  · by_cases h2 : c = lfChar
    · subst h2
      simp [escape_text, pyCharReplace, lf_ne_sq, bs_ne_cr, n_ne_cr]
    · by_cases h3 : c = crChar
      · subst h3
        simp [escape_text, pyCharReplace, cr_ne_sq, cr_ne_lf]
      · simp [escape_text, pyCharReplace, h1, h2, h3]

/-- C7 counterexample: on the two-character input backslash-n, the escaping
composed with the query language's literal unescaping is not the identity (the
literal denotes a line feed), because the escaper does not neutralize the
backslash itself. -/
theorem escape_roundtrip_breaks :
    unescape_literal (escape_text [bsChar, 'n']) ≠ [bsChar, 'n'] := by decide

/-- C7 (amended): for every text containing no backslash, the string embedded
into the query literal denotes, under the query language's literal unescaping,
exactly the original text. -/
theorem escape_unescape_id (s : List Char) (h : bsChar ∉ s) :
    unescape_literal (escape_text s) = s := by
  induction s with
  | nil => rfl
  | cons c t ih =>
    have hc : ¬ c = bsChar := fun hcc => h (hcc ▸ List.mem_cons_self c t)
    have ht : bsChar ∉ t := fun hm => h (List.mem_cons_of_mem c hm)
    rw [escape_text_cons]
    by_cases h1 : c = sqChar
    · subst h1
      rw [if_pos rfl]
      show unescape_literal (bsChar :: sqChar :: escape_text t) = sqChar :: t
      rw [unescape_escaped, decode_sq, ih ht]
    · by_cases h2 : c = lfChar
      · subst h2
        rw [if_neg lf_ne_sq, if_pos rfl]
        show unescape_literal (bsChar :: 'n' :: escape_text t) = lfChar :: t
        rw [unescape_escaped, decode_n, ih ht]
      · by_cases h3 : c = crChar
        · subst h3
          rw [if_neg cr_ne_sq, if_neg cr_ne_lf, if_pos rfl]
          show unescape_literal (bsChar :: 'r' :: escape_text t) = crChar :: t
          rw [unescape_escaped, decode_r, ih ht]
        · rw [if_neg h1, if_neg h2, if_neg h3]
          show unescape_literal (c :: escape_text t) = c :: t
          rw [unescape_cons_of_ne c _ hc, ih ht]

/-- C7 witness: the round trip is the identity on a backslash-free text
containing a quote, a line feed and a carriage return. -/
theorem escape_unescape_id_witness :
    unescape_literal (escape_text [sqChar, 'a', lfChar, crChar])
      = [sqChar, 'a', lfChar, crChar] :=
  escape_unescape_id [sqChar, 'a', lfChar, crChar] (by decide)

/-- C8: prepare_ticket_text renders one line per present field in the fixed
order Subject, Issue, Resolution, joined with newlines; a field is present
only when one of its (bare-first) keys holds a value that is neither None nor
blank after text conversion and trimming, and the rendered text is that
trimmed value; when no field is present the result is the empty string. -/
theorem prepare_ticket_text_spec (t : PyDict) :
    (∀ names v, get_field_value t names = some v →
      v ≠ "" ∧ ∃ n ∈ names, ∃ pv, t.lookup n = some pv ∧
        pv.isNone = false ∧ pyStrip (pyStr pv) = v) ∧
    (get_field_value t ["subject", "ticket_subject"] = none →
     get_field_value t ["description", "ticket_description"] = none →
     get_field_value t ["resolution", "ticket_resolution"] = none →
     prepare_ticket_text t = "") ∧
    prepare_ticket_text t = String.intercalate "
"
      ((get_field_value t ["subject", "ticket_subject"]).toList.map
        (fun s => "Subject: " ++ s) ++
       (get_field_value t ["description", "ticket_description"]).toList.map
        (fun s => "Issue: " ++ s) ++
       (get_field_value t ["resolution", "ticket_resolution"]).toList.map
        (fun s => "Resolution: " ++ s)) := by
  refine ⟨?_, ?_, ?_⟩
  · intro names
    induction names with
    | nil => intro v hv; simp [get_field_value] at hv
    | cons n rest ih =>
      intro v hv
      cases hl : t.lookup n with
      | none =>
        simp only [get_field_value, hl] at hv
        obtain ⟨hv0, n2, hn2, pv, hpv⟩ := ih v hv
        exact ⟨hv0, n2, List.mem_cons_of_mem n hn2, pv, hpv⟩
      | some pv =>
        simp only [get_field_value, hl] at hv
        by_cases hno : pv.isNone
        · simp [hno] at hv
        · simp only [hno, if_false, Bool.false_eq_true] at hv
          by_cases hs : pyStrip (pyStr pv) = ""
          · simp [hs] at hv
          · simp only [hs, if_false] at hv
            have hv2 : pyStrip (pyStr pv) = v := Option.some.inj hv
            refine ⟨?_, n, List.mem_cons_self n rest, pv, hl, ?_, hv2⟩
            · exact fun hveq => hs (hv2.trans hveq)
            · simpa using hno
  · intro h1 h2 h3
    simp [prepare_ticket_text, h1, h2, h3]
  · cases hs : get_field_value t ["subject", "ticket_subject"] <;>
    cases hd : get_field_value t ["description", "ticket_description"] <;>
    cases hr : get_field_value t ["resolution", "ticket_resolution"] <;>
      simp [prepare_ticket_text, hs, hd, hr]
    rfl

/-- C8 witness: the presence characterization at a concrete ticket. -/
theorem prepare_ticket_text_spec_witness :
    ("A" : String) ≠ "" ∧ ∃ n ∈ ["subject", "ticket_subject"], ∃ pv,
      ([("subject", PyVal.vstr " A ")] : PyDict).lookup n = some pv ∧
      pv.isNone = false ∧ pyStrip (pyStr pv) = "A" :=
  (prepare_ticket_text_spec [("subject", PyVal.vstr " A ")]).1
    ["subject", "ticket_subject"] "A" (by decide)

/-- C10: when the bare key is present but holds None or a blank-after-trim
value, the field resolves to absent without the prefixed key ever being
consulted — even when the prefixed key holds a non-blank value — and the
field's line is omitted from prepare_ticket_text's output. -/
theorem bare_key_shadows (t : PyDict) (pv : PyVal) (w : String)
    (hbare : t.lookup "subject" = some pv)
    (hblank : pv.isNone = true ∨ pyStrip (pyStr pv) = "")
    (_hpref : t.lookup "ticket_subject" = some (PyVal.vstr w))
    (_hw : pyStrip w ≠ "") :
    (∀ rest, get_field_value t ("subject" :: rest) = none) ∧
    prepare_ticket_text t = String.intercalate "
"
      ((get_field_value t ["description", "ticket_description"]).toList.map
        (fun s => "Issue: " ++ s) ++
       (get_field_value t ["resolution", "ticket_resolution"]).toList.map
        (fun s => "Resolution: " ++ s)) := by
  have hnone : ∀ rest, get_field_value t ("subject" :: rest) = none := by
    intro rest
    cases hblank with
    | inl h => simp [get_field_value, hbare, h]
    | inr h =>
      by_cases hno : pv.isNone
      · simp [get_field_value, hbare, hno]
      · simp [get_field_value, hbare, hno, h]
  refine ⟨hnone, ?_⟩
  have hs := hnone ["ticket_subject"]
  cases hd : get_field_value t ["description", "ticket_description"] <;>
  cases hr : get_field_value t ["resolution", "ticket_resolution"] <;>
    simp [prepare_ticket_text, hs, hd, hr] <;> try rfl

/-- C10 witness: a blank bare subject hides a non-blank prefixed subject. -/
theorem bare_key_shadows_witness :
    prepare_ticket_text
      [("subject", PyVal.vstr "  "), ("ticket_subject", PyVal.vstr "X")] = "" :=
  ((bare_key_shadows
      [("subject", PyVal.vstr "  "), ("ticket_subject", PyVal.vstr "X")]
      (PyVal.vstr "  ") "X" rfl (Or.inr (by decide)) rfl (by decide)).2).trans
    (by decide)

/-- C9 counterexample: on the claim's single-element list with bare keys
(subject/description/resolution), format_rag_context does not return the
claimed string — the code reads the ticket_-prefixed keys, so those fields
render empty. -/
theorem format_rag_context_bare_keys :
    format_rag_context [[("ticket_id", PyVal.vint 1), ("subject", PyVal.vstr "S"),
      ("description", PyVal.vstr "D"), ("resolution", PyVal.vstr "R")]]
      ≠ "Similar Cases:
Case #1: S
Issue: D
Resolution: R" := by decide

/-- C9 (amended): format_rag_context returns the empty string on the empty
list, and on the single-element list keyed ticket_id/ticket_subject/
ticket_description/ticket_resolution returns exactly the claimed string with
the trailing separator stripped. -/
theorem format_rag_context_spec :
    format_rag_context [] = "" ∧
    format_rag_context [[("ticket_id", PyVal.vint 1),
      ("ticket_subject", PyVal.vstr "S"), ("ticket_description", PyVal.vstr "D"),
      ("ticket_resolution", PyVal.vstr "R")]]
      = "Similar Cases:
Case #1: S
Issue: D
Resolution: R" :=
  ⟨rfl, by decide⟩

end ConcreteEvaluation
